import Mathlib

/-!
Shallow embedding of the per-document vector store in
src/src-tauri/src/vector_store.rs.

Modelling conventions:
* f32 values (vector components, distances, scores) are modelled as exact
  rationals.
* The LanceDB backend is modelled as an association list from table name to
  table contents; drop_table removes the entry, create_table adds it,
  open_table on a missing name is an error, table_names lists the keys.
  The nearest-neighbor query returns the rows ascending by L2 distance,
  truncated by the limit; the distance value is modelled as squared L2
  (ascending order by squared L2 coincides with ascending order by L2).
* The arrow FixedSizeListArray construction computes the list count as
  values.len() / max(size, 1) with integer division and no divisibility
  check; RecordBatch construction fails when its columns have unequal
  lengths. The usize-to-i32 cast of the first vector length wraps.
* Filesystem effects (the temp Arrow IPC file) are a lossless round trip of
  the batch and are not modelled separately.
-/

namespace Redink

/-- A chunk record handed to add_chunks, and also a stored table row: the
table columns are exactly these five fields (struct ChunkData). -/
structure ChunkData where
  id : String
  text : String
  vector : List ℚ
  chunk_index : Int
  text_length : Int
deriving Repr, DecidableEq

/-- One on-disk document table: its fixed vector dimensionality and rows. -/
structure Table where
  dim : Int
  rows : List ChunkData
deriving Repr, DecidableEq

/-- The LanceDB storage root: a map from table name to table. -/
abbrev Store := List (String × Table)

/-- open_table: first binding for the name, if any. -/
def Store.lookup : Store → String → Option Table
  | [], _ => none
  | (n, t) :: s, m => if n = m then some t else Store.lookup s m

/-- drop_table: remove every binding for the name. -/
def Store.dropTable : Store → String → Store
  | [], _ => []
  | (n, t) :: s, m =>
    if n = m then Store.dropTable s m else (n, t) :: Store.dropTable s m

/-- create_table: add a fresh binding (callers drop the name first). -/
def Store.create (s : Store) (m : String) (t : Table) : Store := (m, t) :: s

/-- table_names: the list of table names in the root. -/
def Store.tableNames (s : Store) : List String := s.map Prod.fst

/-- Character sanitization used to derive table names: keep alphanumeric
characters and replace everything else by an underscore (the Rust code uses
the Unicode is_alphanumeric class; it is modelled by Char.isAlphanum). -/
def sanitizeChar (c : Char) : Char := if c.isAlphanum then c else '_'

/-- Table name derivation: the doc_ marker followed by the sanitized
document id (vector_store.rs line 69 and its copies). -/
def tableName (document_id : String) : String :=
  String.mk ("doc_".data ++ document_id.data.map sanitizeChar)

/-- The usize-to-i32 cast used for the vector dimensionality, with wrap. -/
def i32ofNat (n : Nat) : Int := ((n : Int) + 2 ^ 31) % 2 ^ 32 - 2 ^ 31

/-- Rows of the created table: the flattened float buffer is cut into
consecutive groups of the fixed width, one per record (the arrow
fixed-width list slicing). -/
def buildRows : List ChunkData → List ℚ → Nat → List ChunkData
  | [], _, _ => []
  | c :: cs, flat, d =>
    { c with vector := flat.take d } :: buildRows cs (flat.drop d) d

/-- vector_store_add_chunks (lines 58-154): derive the table name, drop any
existing table under it (errors swallowed), build the batch, create the
table. The batch fails exactly when the arrow row count of the vector
column, total floats divided by max(dim, 1), differs from the record
count. Returns the new store paired with the pass-or-fail result. -/
def vector_store_add_chunks (document_id : String) (chunks : List ChunkData)
    (store : Store) : Store × Except String String :=
  let table_name := tableName document_id
  let store1 := Store.dropTable store table_name
  let vector_dim : Int :=
    match chunks with
    | [] => 384
    | c :: _ => i32ofNat c.vector.length
  if vector_dim < 0 then
    (store1, Except.error "Failed to create vector array: Size cannot be negative")
  else
    let width := max vector_dim.toNat 1
    let total := (chunks.map fun c => c.vector.length).sum
    if total / width ≠ chunks.length then
      (store1, Except.error "Failed to create record batch: all columns in a record batch must have the same length")
    else
      let flat := (chunks.map fun c => c.vector).flatten
      (Store.create store1 table_name ⟨vector_dim, buildRows chunks flat vector_dim.toNat⟩,
        Except.ok ("Added " ++ toString chunks.length ++ " chunks to table " ++ table_name))

/-- Squared L2 distance between a query and a stored vector. -/
def distQ (q v : List ℚ) : ℚ := ((List.zip q v).map fun p => (p.1 - p.2) ^ 2).sum

/-- The distance-to-relevance transform of vector_store_search line 210. -/
def scoreOf (d : ℚ) : ℚ := 1 / (1 + d)

/-- One returned search row (struct VectorSearchResult). -/
structure VectorSearchResult where
  id : String
  text : String
  score : ℚ
  distance : ℚ
deriving Repr, DecidableEq

/-- Row comparison by distance to a fixed query vector. -/
def rowLE (q : List ℚ) (a b : ChunkData) : Prop :=
  distQ q a.vector ≤ distQ q b.vector

instance (q : List ℚ) : DecidableRel (rowLE q) := fun a b =>
  inferInstanceAs (Decidable (distQ q a.vector ≤ distQ q b.vector))

instance (q : List ℚ) : IsTotal ChunkData (rowLE q) := ⟨fun a b => le_total _ _⟩

instance (q : List ℚ) : IsTrans ChunkData (rowLE q) := ⟨fun _ _ _ => le_trans⟩

/-- Extraction of one result row (lines 208-218). -/
def toResult (q : List ℚ) (r : ChunkData) : VectorSearchResult :=
  { id := r.id, text := r.text, score := scoreOf (distQ q r.vector),
    distance := distQ q r.vector }

/-- vector_store_search (lines 156-222): open the table (missing table is
an error), run the nearest-neighbor query (rows ascending by distance,
truncated to top_k; a query of the wrong dimensionality is a backend
error), and extract the rows in stream order. -/
def vector_store_search (document_id : String) (query_embedding : List ℚ)
    (top_k : Nat) (store : Store) : Except String (List VectorSearchResult) :=
  match Store.lookup store (tableName document_id) with
  | none => Except.error ("Table not found: " ++ tableName document_id)
  | some t =>
    if (query_embedding.length : Int) ≠ t.dim then
      Except.error "Query failed: query vector dimension mismatch"
    else
      Except.ok (((t.rows.insertionSort (rowLE query_embedding)).take top_k).map
        (toResult query_embedding))

/-- vector_store_has_document (lines 224-243): list the table names and
report membership; never an error once connected. -/
def vector_store_has_document (document_id : String) (store : Store) :
    Except String Bool :=
  Except.ok (decide (tableName document_id ∈ Store.tableNames store))

/-- vector_store_delete_document (lines 245-262): drop the table; a missing
table surfaces the backend error here (asymmetric with add_chunks). -/
def vector_store_delete_document (document_id : String) (store : Store) :
    Store × Except String String :=
  let table_name := tableName document_id
  match Store.lookup store table_name with
  | none =>
    (store, Except.error ("Failed to delete table: table " ++ table_name ++ " was not found"))
  | some _ =>
    (Store.dropTable store table_name, Except.ok ("Deleted table: " ++ table_name))

/-- vector_store_clear_all (lines 264-284): drop every listed table; each
drop of an existing table succeeds, leaving the root empty. -/
def vector_store_clear_all (store : Store) : Store × Except String String :=
  ([], Except.ok "Cleared all tables")

/-- vector_store_get_count (lines 286-310): open the table (missing table
is an error) and return its row count as i64. -/
def vector_store_get_count (document_id : String) (store : Store) :
    Except String Int :=
  match Store.lookup store (tableName document_id) with
  | none => Except.error ("Table not found: " ++ tableName document_id)
  | some t => Except.ok (Int.ofNat t.rows.length)

/-- The mutable application state (struct VectorStoreState): just the
stored db_path option. -/
def VectorStoreState := Option String

/-- vector_store_initialize (lines 41-56): record the storage path in the
state and test the connection; no table is touched. -/
def vector_store_initialize (storage_path : String) (st : VectorStoreState) :
    VectorStoreState × Except String String :=
  (some storage_path, Except.ok ("LanceDB initialized at: " ++ storage_path))

/-- The caller-facing operations other than initialization, as invokable
commands. -/
inductive Command where
  | addChunks (document_id : String) (chunks : List ChunkData)
  | search (document_id : String) (query_embedding : List ℚ) (top_k : Nat)
  | hasDocument (document_id : String)
  | deleteDocument (document_id : String)
  | clearAll
  | getCount (document_id : String)

/-- The possible success payloads of the commands. -/
inductive CommandOutput where
  | msg (s : String)
  | results (rs : List VectorSearchResult)
  | flag (b : Bool)
  | count (n : Int)
deriving DecidableEq

/-- Dispatch of one command against the application state and the storage
root, faithful to the Rust signatures: only initialization ever touches
the application state, and no other command receives it. -/
def runCommand (st : VectorStoreState) (c : Command) (store : Store) :
    VectorStoreState × Store × Except String CommandOutput :=
  match c with
  | .addChunks id chunks =>
    let r := vector_store_add_chunks id chunks store
    (st, r.1, r.2.map CommandOutput.msg)
  | .search id q k =>
    (st, store, (vector_store_search id q k store).map CommandOutput.results)
  | .hasDocument id =>
    (st, store, (vector_store_has_document id store).map CommandOutput.flag)
  | .deleteDocument id =>
    let r := vector_store_delete_document id store
    (st, r.1, r.2.map CommandOutput.msg)
  | .clearAll =>
    let r := vector_store_clear_all store
    (st, r.1, r.2.map CommandOutput.msg)
  | .getCount id =>
    (st, store, (vector_store_get_count id store).map CommandOutput.count)

theorem lookup_dropTable_self (s : Store) (m : String) :
    Store.lookup (Store.dropTable s m) m = none := by
  induction s with
  | nil => rfl
  | cons p s ih =>
    unfold Store.dropTable
    by_cases h : p.1 = m
    · simpa [h] using ih
    · simpa [Store.lookup, h] using ih

theorem lookup_dropTable_ne (s : Store) (m n : String) (h : n ≠ m) :
    Store.lookup (Store.dropTable s m) n = Store.lookup s n := by
  induction s with
  | nil => rfl
  | cons p s ih =>
    obtain ⟨pn, pt⟩ := p
    unfold Store.dropTable
    by_cases hp : pn = m
    · simp [hp, Store.lookup, ih, Ne.symm h]
    · by_cases hn : pn = n
      · simp [Store.lookup, hp, hn, h]
      · simp [Store.lookup, hp, hn, ih]

theorem lookup_create_self (s : Store) (m : String) (t : Table) :
    Store.lookup (Store.create s m t) m = some t := by
  simp [Store.create, Store.lookup]

theorem lookup_create_ne (s : Store) (m n : String) (t : Table) (h : n ≠ m) :
    Store.lookup (Store.create s m t) n = Store.lookup s n := by
  have hmn : m ≠ n := fun he => h he.symm
  simp [Store.create, Store.lookup, hmn]

theorem mem_tableNames_iff (s : Store) (m : String) :
    m ∈ Store.tableNames s ↔ (Store.lookup s m).isSome := by
  induction s with
  | nil => simp [Store.tableNames, Store.lookup]
  | cons p s ih =>
    obtain ⟨pn, pt⟩ := p
    by_cases h : pn = m
    · simp [Store.tableNames, Store.lookup, h]
    · rw [show Store.tableNames ((pn, pt) :: s) = pn :: Store.tableNames s from rfl,
        List.mem_cons]
      unfold Store.lookup
      rw [if_neg h, ← ih]
      simp [Ne.symm h]

theorem buildRows_length (cs : List ChunkData) (flat : List ℚ) (d : Nat) :
    (buildRows cs flat d).length = cs.length := by
  induction cs generalizing flat with
  | nil => rfl
  | cons c cs ih => simp [buildRows, ih]

theorem sum_vector_length_uniform (cs : List ChunkData) (d : Nat)
    (hu : ∀ x ∈ cs, x.vector.length = d) :
    ((cs.map fun c => c.vector.length).sum) = cs.length * d := by
  induction cs with
  | nil => simp
  | cons c cs ih =>
    have hc := hu c (List.mem_cons_self c cs)
    have ih2 := ih fun x hx => hu x (List.mem_cons_of_mem c hx)
    simp [hc, ih2, Nat.succ_mul, Nat.add_comm]

theorem i32ofNat_of_lt (n : Nat) (h : n < 2 ^ 31) : i32ofNat n = (n : Int) := by
  unfold i32ofNat
  omega

/-- On a non-empty uniform batch of positive dimensionality below the i32
bound, add_chunks takes the success path: the old table is dropped and the
new one created from the batch. -/
theorem add_chunks_uniform_ok (document_id : String) (store : Store)
    (c : ChunkData) (cs : List ChunkData) (d : Nat)
    (hu : ∀ x ∈ c :: cs, x.vector.length = d) (hd : 0 < d) (hb : d < 2 ^ 31) :
    vector_store_add_chunks document_id (c :: cs) store =
      (Store.create (Store.dropTable store (tableName document_id)) (tableName document_id)
        ⟨(d : Int),
          buildRows (c :: cs) (((c :: cs).map fun x => x.vector).flatten) d⟩,
        Except.ok ("Added " ++ toString (c :: cs).length ++ " chunks to table " ++
          tableName document_id)) := by
  have hc : c.vector.length = d := hu c (List.mem_cons_self c cs)
  have hdim : i32ofNat c.vector.length = (d : Int) := by rw [hc]; exact i32ofNat_of_lt d hb
  have hsum := sum_vector_length_uniform (c :: cs) d hu
  have hneg : ¬((d : Int) < 0) := by omega
  have htoNat : (d : Int).toNat = d := Int.toNat_ofNat d
  have hmax : max d 1 = d := by omega
  have hdiv : (c :: cs).length * d / d = (c :: cs).length := Nat.mul_div_cancel _ hd
  unfold vector_store_add_chunks
  simp only [hdim, htoNat, hmax, hsum, hdiv]
  rw [if_neg hneg]
  simp

theorem distQ_nonneg (q v : List ℚ) : 0 ≤ distQ q v := by
  unfold distQ
  apply List.sum_nonneg
  intro x hx
  simp only [List.mem_map] at hx
  obtain ⟨p, _, rfl⟩ := hx
  positivity

theorem scoreOf_pos (d : ℚ) (h : 0 ≤ d) : 0 < scoreOf d := by
  unfold scoreOf
  exact div_pos one_pos (by linarith)

theorem scoreOf_le_one (d : ℚ) (h : 0 ≤ d) : scoreOf d ≤ 1 := by
  unfold scoreOf
  rw [div_le_one (by linarith)]
  linarith

theorem scoreOf_strict_anti (d1 d2 : ℚ) (h1 : 0 ≤ d1) (h12 : d1 < d2) :
    scoreOf d2 < scoreOf d1 := by
  unfold scoreOf
  exact one_div_lt_one_div_of_lt (by linarith) (by linarith)

theorem scoreOf_zero : scoreOf 0 = 1 := by
  unfold scoreOf
  norm_num

theorem mem_search_ok (document_id : String) (q : List ℚ) (top_k : Nat)
    (store : Store) (rs : List VectorSearchResult)
    (hok : vector_store_search document_id q top_k store = Except.ok rs) :
    ∀ r ∈ rs, r.score = scoreOf r.distance ∧ 0 ≤ r.distance := by
  unfold vector_store_search at hok
  split at hok
  · exact absurd hok (by simp)
  · split at hok
    · exact absurd hok (by simp)
    · intro r hr
      rw [← Except.ok.inj hok] at hr
      simp only [List.mem_map] at hr
      obtain ⟨row, _, rfl⟩ := hr
      exact ⟨rfl, distQ_nonneg q row.vector⟩

/-- C3: every row returned by search carries score = 1 / (1 + distance);
the transform maps nonnegative distances into (0, 1], is strictly
decreasing, so among returned rows a strictly smaller distance means a
strictly larger score, and distance 0 gives score exactly 1. -/
theorem search_score_transform (document_id : String) (q : List ℚ) (top_k : Nat)
    (store : Store) (rs : List VectorSearchResult)
    (hok : vector_store_search document_id q top_k store = Except.ok rs) :
    (∀ r ∈ rs, r.score = 1 / (1 + r.distance)) ∧
      (∀ d : ℚ, 0 ≤ d → 0 < scoreOf d ∧ scoreOf d ≤ 1) ∧
      (∀ d1 d2 : ℚ, 0 ≤ d1 → d1 < d2 → scoreOf d2 < scoreOf d1) ∧
      scoreOf 0 = 1 ∧
      (∀ r1 ∈ rs, ∀ r2 ∈ rs, r1.distance < r2.distance → r2.score < r1.score) ∧
      (∀ r ∈ rs, r.distance = 0 → r.score = 1) := by
  have hmem := mem_search_ok document_id q top_k store rs hok
  refine ⟨?_, ?_, ?_, scoreOf_zero, ?_, ?_⟩
  · intro r hr
    rw [(hmem r hr).1]
    rfl
  · intro d hd
    exact ⟨scoreOf_pos d hd, scoreOf_le_one d hd⟩
  · intro d1 d2 h1 h12
    exact scoreOf_strict_anti d1 d2 h1 h12
  · intro r1 hr1 r2 hr2 hlt
    rw [(hmem r1 hr1).1, (hmem r2 hr2).1]
    exact scoreOf_strict_anti r1.distance r2.distance (hmem r1 hr1).2 hlt
  · intro r hr hz
    rw [(hmem r hr).1, hz]
    exact scoreOf_zero

/-- C3 witness: the score facts at a concrete one-row store and query. -/
theorem search_score_transform_witness :
    (∀ r ∈ [VectorSearchResult.mk "a" "x" (scoreOf (distQ [0] [3])) (distQ [0] [3])],
        r.score = 1 / (1 + r.distance)) ∧
      (∀ d : ℚ, 0 ≤ d → 0 < scoreOf d ∧ scoreOf d ≤ 1) ∧
      (∀ d1 d2 : ℚ, 0 ≤ d1 → d1 < d2 → scoreOf d2 < scoreOf d1) ∧
      scoreOf 0 = 1 ∧
      (∀ r1 ∈ [VectorSearchResult.mk "a" "x" (scoreOf (distQ [0] [3])) (distQ [0] [3])],
        ∀ r2 ∈ [VectorSearchResult.mk "a" "x" (scoreOf (distQ [0] [3])) (distQ [0] [3])],
          r1.distance < r2.distance → r2.score < r1.score) ∧
      (∀ r ∈ [VectorSearchResult.mk "a" "x" (scoreOf (distQ [0] [3])) (distQ [0] [3])],
        r.distance = 0 → r.score = 1) :=
  search_score_transform "d" [0] 2
    [(tableName "d", ⟨1, [⟨"a", "x", [3], 0, 1⟩]⟩)]
    [VectorSearchResult.mk "a" "x" (scoreOf (distQ [0] [3])) (distQ [0] [3])] (by rfl)

/-- C7: against a document id with no stored table, search and get_count
fail with the not-found error, delete_document fails and leaves the store
unchanged, while has_document succeeds with false. -/
theorem not_found_semantics (document_id : String) (store : Store) (q : List ℚ)
    (top_k : Nat) (habs : Store.lookup store (tableName document_id) = none) :
    vector_store_search document_id q top_k store =
        Except.error ("Table not found: " ++ tableName document_id) ∧
      vector_store_get_count document_id store =
        Except.error ("Table not found: " ++ tableName document_id) ∧
      (vector_store_delete_document document_id store).2 =
        Except.error ("Failed to delete table: table " ++ tableName document_id ++
          " was not found") ∧
      (vector_store_delete_document document_id store).1 = store ∧
      vector_store_has_document document_id store = Except.ok false := by
  have hmem : ¬(tableName document_id ∈ Store.tableNames store) := by
    rw [mem_tableNames_iff, habs]
    simp
  refine ⟨?_, ?_, ?_, ?_, ?_⟩
  · unfold vector_store_search
    rw [habs]
  · unfold vector_store_get_count
    rw [habs]
  · simp only [vector_store_delete_document, habs]
  · simp only [vector_store_delete_document, habs]
  · unfold vector_store_has_document
    simp [hmem]

/-- C7 witness: the not-found behaviors at a concrete empty store. -/
theorem not_found_semantics_witness :
    vector_store_search "nope" [0] 3 [] =
        Except.error ("Table not found: " ++ tableName "nope") ∧
      vector_store_get_count "nope" [] =
        Except.error ("Table not found: " ++ tableName "nope") ∧
      (vector_store_delete_document "nope" []).2 =
        Except.error ("Failed to delete table: table " ++ tableName "nope" ++
          " was not found") ∧
      (vector_store_delete_document "nope" []).1 = [] ∧
      vector_store_has_document "nope" [] = Except.ok false :=
  not_found_semantics "nope" [] [0] 3 rfl

/-- C9: add_chunks with the empty chunk list succeeds, creating a table of
count 0 and default dimensionality 384, and a search of matching
dimensionality against it returns the empty sequence, not an error. -/
theorem add_chunks_empty_list (document_id : String) (store : Store) (q : List ℚ)
    (top_k : Nat) (hq : q.length = 384) :
    (vector_store_add_chunks document_id [] store).2 =
        Except.ok ("Added 0 chunks to table " ++ tableName document_id) ∧
      Store.lookup (vector_store_add_chunks document_id [] store).1
        (tableName document_id) = some ⟨384, []⟩ ∧
      vector_store_get_count document_id (vector_store_add_chunks document_id [] store).1 =
        Except.ok 0 ∧
      vector_store_search document_id q top_k
          (vector_store_add_chunks document_id [] store).1 =
        Except.ok [] := by
  have hstore : vector_store_add_chunks document_id [] store =
      (Store.create (Store.dropTable store (tableName document_id))
        (tableName document_id) ⟨384, []⟩,
        Except.ok ("Added 0 chunks to table " ++ tableName document_id)) := rfl
  have hlook : Store.lookup (vector_store_add_chunks document_id [] store).1
      (tableName document_id) = some ⟨384, []⟩ := by
    rw [hstore]
    exact lookup_create_self _ _ _
  have hcond : ¬((q.length : Int) ≠ (Table.mk 384 []).dim) := by
    rw [hq]
    simp
  refine ⟨congrArg Prod.snd hstore, hlook, ?_, ?_⟩
  · unfold vector_store_get_count
    simp only [hlook]
    rfl
  · unfold vector_store_search
    simp only [hlook]
    rw [if_neg hcond]
    simp [List.insertionSort]

/-- C9 witness: the empty-batch behaviors at a concrete store and query. -/
theorem add_chunks_empty_list_witness :
    (vector_store_add_chunks "d" [] []).2 =
        Except.ok ("Added 0 chunks to table " ++ tableName "d") ∧
      Store.lookup (vector_store_add_chunks "d" [] []).1 (tableName "d") =
        some ⟨384, []⟩ ∧
      vector_store_get_count "d" (vector_store_add_chunks "d" [] []).1 =
        Except.ok 0 ∧
      vector_store_search "d" (List.replicate 384 0) 5
          (vector_store_add_chunks "d" [] []).1 =
        Except.ok [] :=
  add_chunks_empty_list "d" [] (List.replicate 384 0) 5 (List.length_replicate 384 0)

/-- C10: no operation other than initialization reads the application
state: every command produces the same store and result whatever the
recorded db_path is, the state is left untouched, and running
initialization first with any path changes no command result. -/
theorem state_independence (st1 st2 : VectorStoreState) (c : Command) (store : Store)
    (p : String) :
    (runCommand st1 c store).2 = (runCommand st2 c store).2 ∧
      (runCommand st1 c store).1 = st1 ∧
      (runCommand ( vector_store_initialize p st1).1 c store).2 =
        (runCommand st1 c store).2 := by
  refine ⟨?_, ?_, ?_⟩ <;> cases c <;> rfl

theorem add_chunks_cases (document_id : String) (chunks : List ChunkData) (store : Store) :
    (∃ e, vector_store_add_chunks document_id chunks store =
        (Store.dropTable store (tableName document_id), Except.error e)) ∨
      ∃ t : Table, t.rows.length = chunks.length ∧
        vector_store_add_chunks document_id chunks store =
          (Store.create (Store.dropTable store (tableName document_id))
            (tableName document_id) t,
            Except.ok ("Added " ++ toString chunks.length ++ " chunks to table " ++
              tableName document_id)) := by
  simp only [vector_store_add_chunks]
  split
  · exact Or.inl ⟨_, rfl⟩
  · split
    · exact Or.inl ⟨_, rfl⟩
    · exact Or.inr ⟨_, buildRows_length _ _ _, rfl⟩

theorem get_count_after_uniform (document_id : String) (store : Store)
    (c : ChunkData) (cs : List ChunkData) (d : Nat)
    (hu : ∀ x ∈ c :: cs, x.vector.length = d) (hd : 0 < d) (hb : d < 2 ^ 31) :
    (vector_store_add_chunks document_id (c :: cs) store).2.isOk = true ∧
      vector_store_get_count document_id
          (vector_store_add_chunks document_id (c :: cs) store).1 =
        Except.ok (Int.ofNat (c :: cs).length) := by
  rw [add_chunks_uniform_ok document_id store c cs d hu hd hb]
  refine ⟨rfl, ?_⟩
  unfold vector_store_get_count
  simp only [lookup_create_self, buildRows_length]

/-- C1 (amended): for any document id and non-empty chunk lists of uniform
positive vector length (below the i32 bound), add_chunks succeeds and
get_count then returns exactly the list length; a second add_chunks for the
same id leaves only the second list stored, so get_count then returns the
second length. -/
theorem add_chunks_get_count_roundtrip (document_id : String) (store : Store)
    (c1 c2 : List ChunkData) (d1 d2 : Nat)
    (h1 : c1 ≠ []) (hu1 : ∀ x ∈ c1, x.vector.length = d1) (hp1 : 0 < d1)
    (hb1 : d1 < 2 ^ 31)
    (h2 : c2 ≠ []) (hu2 : ∀ x ∈ c2, x.vector.length = d2) (hp2 : 0 < d2)
    (hb2 : d2 < 2 ^ 31) :
    (vector_store_add_chunks document_id c1 store).2.isOk = true ∧
      vector_store_get_count document_id
          (vector_store_add_chunks document_id c1 store).1 =
        Except.ok (Int.ofNat c1.length) ∧
      (vector_store_add_chunks document_id c2
          (vector_store_add_chunks document_id c1 store).1).2.isOk = true ∧
      vector_store_get_count document_id
          (vector_store_add_chunks document_id c2
            (vector_store_add_chunks document_id c1 store).1).1 =
        Except.ok (Int.ofNat c2.length) := by
  obtain ⟨a, as, rfl⟩ : ∃ a as, c1 = a :: as := by
    cases c1 with
    | nil => exact absurd rfl h1
    | cons a as => exact ⟨a, as, rfl⟩
  obtain ⟨b, bs, rfl⟩ : ∃ b bs, c2 = b :: bs := by
    cases c2 with
    | nil => exact absurd rfl h2
    | cons b bs => exact ⟨b, bs, rfl⟩
  have hA := get_count_after_uniform document_id store a as d1 hu1 hp1 hb1
  have hB := get_count_after_uniform document_id
    (vector_store_add_chunks document_id (a :: as) store).1 b bs d2 hu2 hp2 hb2
  exact ⟨hA.1, hA.2, hB.1, hB.2⟩

/-- C1 witness: the round trip at concrete one- and two-chunk lists. -/
theorem add_chunks_get_count_roundtrip_witness :
    (vector_store_add_chunks "d" [ChunkData.mk "a" "x" [1] 0 1] []).2.isOk = true ∧
      vector_store_get_count "d"
          (vector_store_add_chunks "d" [ChunkData.mk "a" "x" [1] 0 1] []).1 =
        Except.ok (Int.ofNat [ChunkData.mk "a" "x" [1] 0 1].length) ∧
      (vector_store_add_chunks "d"
          [ChunkData.mk "b" "y" [2] 1 1, ChunkData.mk "c" "z" [3] 2 1]
          (vector_store_add_chunks "d" [ChunkData.mk "a" "x" [1] 0 1] []).1).2.isOk = true ∧
      vector_store_get_count "d"
          (vector_store_add_chunks "d"
            [ChunkData.mk "b" "y" [2] 1 1, ChunkData.mk "c" "z" [3] 2 1]
            (vector_store_add_chunks "d" [ChunkData.mk "a" "x" [1] 0 1] []).1).1 =
        Except.ok (Int.ofNat
          [ChunkData.mk "b" "y" [2] 1 1, ChunkData.mk "c" "z" [3] 2 1].length) :=
  add_chunks_get_count_roundtrip "d" [] [ChunkData.mk "a" "x" [1] 0 1]
    [ChunkData.mk "b" "y" [2] 1 1, ChunkData.mk "c" "z" [3] 2 1] 1 1
    (by decide) (by decide) (by decide) (by decide)
    (by decide) (by decide) (by decide) (by decide)

/-- C1 counterexample: a non-empty batch whose records all have the uniform
vector length 0 makes add_chunks fail, so get_count afterwards is an error
rather than the list length. -/
theorem roundtrip_zero_dim_counterexample :
    (∀ x ∈ [ChunkData.mk "a" "x" [] 0 0], x.vector.length = 0) ∧
      (vector_store_add_chunks "d" [ChunkData.mk "a" "x" [] 0 0] []).2.isOk = false ∧
      vector_store_get_count "d"
          (vector_store_add_chunks "d" [ChunkData.mk "a" "x" [] 0 0] []).1 =
        Except.error ("Table not found: " ++ tableName "d") ∧
      vector_store_get_count "d"
          (vector_store_add_chunks "d" [ChunkData.mk "a" "x" [] 0 0] []).1 ≠
        Except.ok (Int.ofNat 1) := by
  refine ⟨by decide, rfl, rfl, ?_⟩
  intro h
  rw [show vector_store_get_count "d"
      (vector_store_add_chunks "d" [ChunkData.mk "a" "x" [] 0 0] []).1 =
      Except.error ("Table not found: " ++ tableName "d") from rfl] at h
  exact Except.noConfusion h

/-- C2 counterexample: a failing add_chunks does not leave a previously
stored table intact: the pre-drop has already destroyed it, so the claim
that the store is unchanged on failure is false. -/
theorem atomicity_counterexample :
    Store.lookup [(tableName "d", Table.mk 1 [ChunkData.mk "old" "t" [5] 0 1])]
        (tableName "d") = some (Table.mk 1 [ChunkData.mk "old" "t" [5] 0 1]) ∧
      (vector_store_add_chunks "d" [ChunkData.mk "a" "x" [] 0 0]
          [(tableName "d", Table.mk 1 [ChunkData.mk "old" "t" [5] 0 1])]).2.isOk = false ∧
      Store.lookup (vector_store_add_chunks "d" [ChunkData.mk "a" "x" [] 0 0]
          [(tableName "d", Table.mk 1 [ChunkData.mk "old" "t" [5] 0 1])]).1
        (tableName "d") = none :=
  ⟨rfl, rfl, rfl⟩

/-- C2 (amended): add_chunks never reports partial success: on failure the
document's table is absent afterwards (the unconditional pre-drop has
already removed any previous table under that name, so old contents are
not preserved), on success the table holds exactly one row per supplied
record, and tables under other names are untouched either way. -/
theorem add_chunks_all_or_nothing (document_id : String) (chunks : List ChunkData)
    (store : Store) :
    ((vector_store_add_chunks document_id chunks store).2.isOk = false →
        Store.lookup (vector_store_add_chunks document_id chunks store).1
          (tableName document_id) = none) ∧
      (∀ m, (vector_store_add_chunks document_id chunks store).2 = Except.ok m →
        ∃ t, Store.lookup (vector_store_add_chunks document_id chunks store).1
            (tableName document_id) = some t ∧ t.rows.length = chunks.length) ∧
      ∀ n, n ≠ tableName document_id →
        Store.lookup (vector_store_add_chunks document_id chunks store).1 n =
          Store.lookup store n := by
  rcases add_chunks_cases document_id chunks store with ⟨e, he⟩ | ⟨t, ht, hok⟩
  · rw [he]
    refine ⟨fun _ => lookup_dropTable_self _ _, fun m hm => absurd hm (by simp), ?_⟩
    intro n hn
    exact lookup_dropTable_ne _ _ _ hn
  · rw [hok]
    refine ⟨fun hfalse => by simp [Except.isOk, Except.toBool] at hfalse,
      fun m hm => ⟨t, lookup_create_self _ _ _, ht⟩, ?_⟩
    intro n hn
    rw [lookup_create_ne _ _ _ _ hn]
    exact lookup_dropTable_ne _ _ _ hn

/-- C5 counterexample: the success value of add_chunks is a confirmation
string, not the numeric count of rows written. -/
theorem count_return_counterexample :
    (vector_store_add_chunks "d" [] []).2 =
        Except.ok ("Added " ++ toString (0 : Nat) ++ " chunks to table " ++ tableName "d") ∧
      (vector_store_add_chunks "d" [] []).2 ≠ Except.ok (toString (0 : Nat)) := by
  refine ⟨rfl, ?_⟩
  intro h
  rw [show (vector_store_add_chunks "d" [] []).2 =
      Except.ok ("Added " ++ toString (0 : Nat) ++ " chunks to table " ++ tableName "d")
      from rfl] at h
  exact absurd (Except.ok.inj h) (by decide)

/-- C5 (amended): on success, add_chunks returns the confirmation string
naming the count of chunk records supplied and the table name, and the
table written holds exactly that many rows; the count is embedded in the
message rather than returned as a number. -/
theorem add_chunks_success_message (document_id : String) (chunks : List ChunkData)
    (store : Store) (m : String)
    (hok : (vector_store_add_chunks document_id chunks store).2 = Except.ok m) :
    m = "Added " ++ toString chunks.length ++ " chunks to table " ++ tableName document_id ∧
      ∃ t, Store.lookup (vector_store_add_chunks document_id chunks store).1
          (tableName document_id) = some t ∧ t.rows.length = chunks.length := by
  rcases add_chunks_cases document_id chunks store with ⟨e, he⟩ | ⟨t, ht, hok2⟩
  · rw [he] at hok
    exact absurd hok (by simp)
  · rw [hok2] at hok ⊢
    exact ⟨(Except.ok.inj hok).symm, t, lookup_create_self _ _ _, ht⟩

/-- C5 witness: the success message at a concrete one-chunk call. -/
theorem add_chunks_success_message_witness :
    "Added " ++ toString (1 : Nat) ++ " chunks to table " ++ tableName "d" =
        "Added " ++ toString [ChunkData.mk "a" "x" [1] 0 1].length ++
          " chunks to table " ++ tableName "d" ∧
      ∃ t, Store.lookup (vector_store_add_chunks "d" [ChunkData.mk "a" "x" [1] 0 1] []).1
          (tableName "d") = some t ∧ t.rows.length = [ChunkData.mk "a" "x" [1] 0 1].length :=
  add_chunks_success_message "d" [ChunkData.mk "a" "x" [1] 0 1] []
    ("Added " ++ toString (1 : Nat) ++ " chunks to table " ++ tableName "d") rfl

/-- C6 counterexample: a batch whose second record has vector length 3
while the first has 2 is not rejected: add_chunks succeeds and creates a
table, silently re-slicing the flattened floats (the second stored row
keeps only two of its three values). -/
theorem uniformity_counterexample :
    ([ChunkData.mk "a" "x" [1, 2] 0 1, ChunkData.mk "b" "y" [3, 4, 5] 1 1].map
        fun c => c.vector.length) = [2, 3] ∧
      (vector_store_add_chunks "d"
          [ChunkData.mk "a" "x" [1, 2] 0 1, ChunkData.mk "b" "y" [3, 4, 5] 1 1]
          []).2.isOk = true ∧
      Store.lookup (vector_store_add_chunks "d"
          [ChunkData.mk "a" "x" [1, 2] 0 1, ChunkData.mk "b" "y" [3, 4, 5] 1 1] []).1
        (tableName "d") =
        some (Table.mk 2 [ChunkData.mk "a" "x" [1, 2] 0 1, ChunkData.mk "b" "y" [3, 4] 1 1]) :=
  ⟨rfl, rfl, rfl⟩

/-- C6 (amended): a non-empty batch is rejected only when the flattened
float count divided by max(first length, 1) differs from the record count;
the error is then the generic record-batch message, which does not
identify the mismatched record, and no table is left under the id. -/
theorem add_chunks_mismatch_detection (document_id : String) (store : Store)
    (c : ChunkData) (cs : List ChunkData) (hb : c.vector.length < 2 ^ 31)
    (hbad : (((c :: cs).map fun x => x.vector.length).sum) / max c.vector.length 1 ≠
      (c :: cs).length) :
    (vector_store_add_chunks document_id (c :: cs) store).2 =
        Except.error "Failed to create record batch: all columns in a record batch must have the same length" ∧
      Store.lookup (vector_store_add_chunks document_id (c :: cs) store).1
        (tableName document_id) = none := by
  have hdim : i32ofNat c.vector.length = (c.vector.length : Int) :=
    i32ofNat_of_lt c.vector.length hb
  have hneg : ¬(i32ofNat c.vector.length < 0) := by
    rw [hdim]
    omega
  have htn : (i32ofNat c.vector.length).toNat = c.vector.length := by
    rw [hdim]
    exact Int.toNat_ofNat _
  have hres : vector_store_add_chunks document_id (c :: cs) store =
      (Store.dropTable store (tableName document_id),
        Except.error "Failed to create record batch: all columns in a record batch must have the same length") := by
    simp only [vector_store_add_chunks]
    rw [if_neg hneg, htn, if_pos hbad]
  rw [hres]
  exact ⟨rfl, lookup_dropTable_self _ _⟩

/-- C6 witness: the detection at a concrete 3-then-1 length mismatch. -/
theorem add_chunks_mismatch_detection_witness :
    (vector_store_add_chunks "d"
        [ChunkData.mk "a" "x" [1, 2, 3] 0 1, ChunkData.mk "b" "y" [4] 1 1] []).2 =
        Except.error "Failed to create record batch: all columns in a record batch must have the same length" ∧
      Store.lookup (vector_store_add_chunks "d"
          [ChunkData.mk "a" "x" [1, 2, 3] 0 1, ChunkData.mk "b" "y" [4] 1 1] []).1
        (tableName "d") = none :=
  add_chunks_mismatch_detection "d" [] (ChunkData.mk "a" "x" [1, 2, 3] 0 1)
    [ChunkData.mk "b" "y" [4] 1 1] (by decide) (by decide)

/-- C4: search on a stored table with a matching-dimension query succeeds,
returns at most top_k rows, in the ascending-by-distance order the modelled
backend produced (not re-sorted), returns all rows (a permutation of the
converted table rows) when top_k is at least the row count, and returns the
empty sequence on an empty table, never an error. -/
theorem search_top_k_ordering (document_id : String) (q : List ℚ) (top_k : Nat)
    (store : Store) (t : Table)
    (hl : Store.lookup store (tableName document_id) = some t)
    (hd : (q.length : Int) = t.dim) :
    ∃ rs, vector_store_search document_id q top_k store = Except.ok rs ∧
      rs.length ≤ top_k ∧
      (t.rows.length ≤ top_k → rs.length = t.rows.length ∧
        rs.Perm (t.rows.map (toResult q))) ∧
      List.Sorted (fun a b : VectorSearchResult => a.distance ≤ b.distance) rs ∧
      (t.rows = [] → rs = []) := by
  have hperm : (t.rows.insertionSort (rowLE q)).Perm t.rows :=
    List.perm_insertionSort (rowLE q) t.rows
  have hlen : (t.rows.insertionSort (rowLE q)).length = t.rows.length :=
    hperm.length_eq
  have hok : vector_store_search document_id q top_k store =
      Except.ok (((t.rows.insertionSort (rowLE q)).take top_k).map (toResult q)) := by
    unfold vector_store_search
    simp only [hl]
    rw [if_neg (fun hne => hne hd)]
  refine ⟨_, hok, ?_, ?_, ?_, ?_⟩
  · rw [List.length_map, List.length_take]
    omega
  · intro hle
    have htake : (t.rows.insertionSort (rowLE q)).take top_k =
        t.rows.insertionSort (rowLE q) :=
      List.take_of_length_le (by omega)
    rw [htake]
    exact ⟨by rw [List.length_map, hlen], hperm.map (toResult q)⟩
  · have hs : List.Sorted (rowLE q) (t.rows.insertionSort (rowLE q)) :=
      List.sorted_insertionSort (rowLE q) t.rows
    have hs2 : List.Pairwise (rowLE q) ((t.rows.insertionSort (rowLE q)).take top_k) :=
      hs.sublist (List.take_sublist top_k _)
    exact List.pairwise_map.mpr hs2
  · intro he
    rw [he]
    simp [List.insertionSort]

/-- Concrete three-row table used to exercise the search contract. -/
def wtable4 : Table :=
  ⟨1, [ChunkData.mk "a" "x" [3] 0 1, ChunkData.mk "b" "y" [1] 1 1,
    ChunkData.mk "c" "z" [2] 2 1]⟩

/-- C4 witness: the search contract at a concrete three-row table. -/
theorem search_top_k_ordering_witness :
    ∃ rs, vector_store_search "doc1" [0] 2 [(tableName "doc1", wtable4)] =
        Except.ok rs ∧
      rs.length ≤ 2 ∧
      (wtable4.rows.length ≤ 2 → rs.length = wtable4.rows.length ∧
        rs.Perm (wtable4.rows.map (toResult [0]))) ∧
      List.Sorted (fun a b : VectorSearchResult => a.distance ≤ b.distance) rs ∧
      (wtable4.rows = [] → rs = []) :=
  search_top_k_ordering "doc1" [0] 2 [(tableName "doc1", wtable4)] wtable4 rfl rfl

/-- Two ids differ only at non-alphanumeric character positions. -/
def collapsesTo (id1 id2 : String) : Prop :=
  id1.data.length = id2.data.length ∧
    ∀ p ∈ List.zip id1.data id2.data,
      p.1 = p.2 ∨ (p.1.isAlphanum = false ∧ p.2.isAlphanum = false)

instance (id1 id2 : String) : Decidable (collapsesTo id1 id2) :=
  inferInstanceAs (Decidable (_ ∧ _))

theorem sanitize_collapse (l1 l2 : List Char) (hlen : l1.length = l2.length)
    (h : ∀ p ∈ List.zip l1 l2,
      p.1 = p.2 ∨ (p.1.isAlphanum = false ∧ p.2.isAlphanum = false)) :
    l1.map sanitizeChar = l2.map sanitizeChar := by
  induction l1 generalizing l2 with
  | nil =>
    cases l2 with
    | nil => rfl
    | cons b bs => simp at hlen
  | cons a as ih =>
    cases l2 with
    | nil => simp at hlen
    | cons b bs =>
      rw [List.zip_cons_cons] at h
      have hp := h (a, b) (List.mem_cons_self _ _)
      have hrest := ih bs (by simpa using hlen) fun p hpp => h p (List.mem_cons_of_mem _ hpp)
      simp only [List.map_cons, hrest]
      rcases hp with he | ⟨ha, hb⟩
      · rw [show a = b from he]
      · have hs : sanitizeChar a = sanitizeChar b := by
          simp only [sanitizeChar]
          rw [show a.isAlphanum = false from ha, show b.isAlphanum = false from hb]
          simp
        rw [hs]

theorem tableName_collapse (id1 id2 : String) (h : collapsesTo id1 id2) :
    tableName id1 = tableName id2 := by
  obtain ⟨hlen, hall⟩ := h
  unfold tableName
  rw [sanitize_collapse id1.data id2.data hlen hall]

/-- C8: every operation derives the table name by the same deterministic
function (the doc_ marker plus per-character sanitization), so two ids
that differ only at non-alphanumeric characters share a table name, are
indistinguishable to every operation, and writing chunks under one id and
then the other leaves a single table holding only the second list's rows. -/
theorem table_name_collision (id1 id2 : String) (hc : collapsesTo id1 id2)
    (c2 : List ChunkData) (store : Store) (m : String)
    (hok : (vector_store_add_chunks id2 c2 store).2 = Except.ok m) :
    tableName id1 = tableName id2 ∧
      (∀ q k s, vector_store_search id1 q k s = vector_store_search id2 q k s) ∧
      (∀ s, vector_store_get_count id1 s = vector_store_get_count id2 s) ∧
      (∀ s, vector_store_has_document id1 s = vector_store_has_document id2 s) ∧
      (∀ s, vector_store_delete_document id1 s = vector_store_delete_document id2 s) ∧
      (∀ c s, vector_store_add_chunks id1 c s = vector_store_add_chunks id2 c s) ∧
      ∃ t, Store.lookup (vector_store_add_chunks id2 c2 store).1 (tableName id1) =
          some t ∧ t.rows.length = c2.length := by
  have hname := tableName_collapse id1 id2 hc
  refine ⟨hname, ?_, ?_, ?_, ?_, ?_, ?_⟩
  · intro q k s
    unfold vector_store_search
    rw [hname]
  · intro s
    unfold vector_store_get_count
    rw [hname]
  · intro s
    unfold vector_store_has_document
    rw [hname]
  · intro s
    unfold vector_store_delete_document
    rw [hname]
  · intro c s
    unfold vector_store_add_chunks
    rw [hname]
  · rcases add_chunks_cases id2 c2 store with ⟨e, he⟩ | ⟨t, ht, hok2⟩
    · rw [he] at hok
      exact absurd hok (by simp)
    · rw [hok2, hname]
      exact ⟨t, lookup_create_self _ _ _, ht⟩

/-- C8 witness: the collision behaviors for the concrete ids doc-1 and
doc_1, the second of which has just been written with one chunk. -/
theorem table_name_collision_witness :
    tableName "doc-1" = tableName "doc_1" ∧
      (∀ q k s, vector_store_search "doc-1" q k s = vector_store_search "doc_1" q k s) ∧
      (∀ s, vector_store_get_count "doc-1" s = vector_store_get_count "doc_1" s) ∧
      (∀ s, vector_store_has_document "doc-1" s = vector_store_has_document "doc_1" s) ∧
      (∀ s, vector_store_delete_document "doc-1" s =
        vector_store_delete_document "doc_1" s) ∧
      (∀ c s, vector_store_add_chunks "doc-1" c s = vector_store_add_chunks "doc_1" c s) ∧
      ∃ t, Store.lookup
          (vector_store_add_chunks "doc_1" [ChunkData.mk "a" "x" [1] 0 1] []).1
          (tableName "doc-1") = some t ∧
        t.rows.length = [ChunkData.mk "a" "x" [1] 0 1].length :=
  table_name_collision "doc-1" "doc_1" (by decide) [ChunkData.mk "a" "x" [1] 0 1] []
    ("Added " ++ toString (1 : Nat) ++ " chunks to table " ++ tableName "doc_1") rfl

end Redink
